import Mathlib

/-!
Verification development for the pegasus master project driver
(src/pegasus/master/masterproj.go) and worker task engine
(src/pegasus/worker/workertask.go).

Go values are shallowly embedded: `time.Time` timestamps become `Nat`
(time is an external input, passed explicitly where the source calls
`time.Now()`), Go `error` becomes `Option String` (`none` = nil),
channels become lists, and the external collaborators (`runJob`,
`task.Project`, `task.Task`, `task.Tasklet`) become records of the
outcomes the source observes through their interfaces.
-/

namespace Pegasus

/-! ## Constants (workertask.go lines 19-25) -/

def BUF_TASKLET_CNT : Nat := 8

def RUNNING_EXECUTOR_CNT : Nat := 2

def TASKLET_MAX_RETRY : Nat := 3

/-- Go `%q` formatting of a plain string (no escapes needed for the
strings used here). -/
def goQuote (s : String) : String := "\"" ++ s ++ "\""

/-! ## Master data model (masterproj.go lines 18-61)

`JobMeta` is owned by the external job runner; the core reads only
`Kind` and `StartTs` (spec section 6), so those are the fields modelled. -/

structure JobMeta where
  kind : String
  startTs : Nat
deriving DecidableEq

structure ProjMeta where
  name : String
  startTs : Nat
  endTs : Nat
  err : Option String
  errMsg : String
  finished : Bool
  jobMetas : List JobMeta
deriving DecidableEq

/-- `(pmeta *ProjMeta) init(projName)` on a zero-valued struct
(masterproj.go lines 28-31). -/
def ProjMeta.initMeta (projName : String) : ProjMeta :=
  { name := projName, startTs := 0, endTs := 0, err := none, errMsg := ""
    finished := false, jobMetas := [] }

/-- `(pmeta *ProjMeta) insertJobMeta` (masterproj.go lines 33-35). -/
def ProjMeta.insertJobMeta (pm : ProjMeta) (jm : JobMeta) : ProjMeta :=
  { pm with jobMetas := pm.jobMetas ++ [jm] }

/-- `(pmeta *ProjMeta) snapshot()` (masterproj.go lines 37-50): the
struct literal copies every exported field and leaves the unexported
`err` at its zero value; the slice copy is value-invisible here (the
pointer structure is modelled separately for the aliasing claim). -/
def ProjMeta.snapshot (pm : ProjMeta) : ProjMeta :=
  { name := pm.name, startTs := pm.startTs, endTs := pm.endTs, err := none
    errMsg := pm.errMsg, finished := pm.finished, jobMetas := pm.jobMetas }

/-- `ProjectCtx` (masterproj.go lines 52-61). `proj` is the stored
`task.Project` handle, modelled opaquely. -/
structure ProjectCtx where
  idx : Nat
  free : Bool
  projId : String
  config : String
  proj : Option Nat
  projMeta : Option ProjMeta
deriving DecidableEq

/-- The Go zero value of `ProjectCtx` (package-level `var projctx`). -/
def zeroProjectCtx : ProjectCtx :=
  { idx := 0, free := false, projId := "", config := "", proj := none, projMeta := none }

/-- `(ctx *ProjectCtx) init()` (masterproj.go lines 63-65) applied to the
zero value, as done by the package `init()` at line 207-209. -/
def ProjectCtx.initCtx : ProjectCtx := { zeroProjectCtx with free := true }

/-- `(ctx *ProjectCtx) makeProjId()` (masterproj.go lines 99-104), with
`time.Now().UnixNano()` passed in as `ts`; the `idx` increment is done by
the caller model. -/
def makeProjId (ts idx : Nat) : String :=
  "proj" ++ toString ts ++ "-" ++ toString idx

/-- `(ctx *ProjectCtx) checkAndUnsetFree(proj, config)` (masterproj.go
lines 74-85). Returns ((projId, error), updated context). -/
def checkAndUnsetFree (ctx : ProjectCtx) (proj : Nat) (config : String) (ts : Nat) :
    (String × Option String) × ProjectCtx :=
  if ctx.free = false then
    (("", some ("Project " ++ goQuote ctx.projId ++ " in running")), ctx)
  else
    let pid := makeProjId ts ctx.idx
    ((pid, none),
     { ctx with free := false, proj := some proj, config := config
                projId := pid, idx := ctx.idx + 1 })

/-- `(ctx *ProjectCtx) snapshotProjMeta()` (masterproj.go lines 112-119):
nil meta gives nil. -/
def snapshotProjMeta (ctx : ProjectCtx) : Option ProjMeta :=
  match ctx.projMeta with
  | none => none
  | some pm => some pm.snapshot

/-! ## Status-query augmentation (masterproj.go lines 190-205) -/

/-- The body of `queryProjStatusHandler` acting on the snapshot's
`JobMetas` (lines 193-203): note the `&&` in the source condition
`last.Kind != jmeta.Kind && last.StartTs != jmeta.StartTs`. -/
def queryAugment (jms : List JobMeta) (jm : JobMeta) : List JobMeta :=
  if jm.kind = "" then
    jms
  else
    match jms.getLast? with
    | some last =>
        if last.kind ≠ jm.kind ∧ last.startTs ≠ jm.startTs then jms ++ [jm] else jms
    | none => jms ++ [jm]

/-- Append condition of the amended augmentation rule, written from the
amended claim's words: the live job meta is appended exactly when its
kind is nonempty and either the snapshot list is empty or the last
element differs in BOTH kind and start timestamp. -/
def shouldAppendLive (jms : List JobMeta) (jm : JobMeta) : Bool :=
  (!(jm.kind == "")) &&
    (match jms.getLast? with
     | none => true
     | some last => (!(last.kind == jm.kind)) && (!(last.startTs == jm.startTs)))

/-- `queryProjStatusHandler` (masterproj.go lines 190-205) as a partial
function of the context: when no project has ever been admitted,
`snapshotProjMeta` returns nil and the handler dereferences that nil
pointer (`pmeta.JobMetas` at line 193), which is modelled as `none`
(no defined result). -/
def queryProjStatusModel (ctx : ProjectCtx) (liveJm : JobMeta) : Option ProjMeta :=
  match snapshotProjMeta ctx with
  | none => none
  | some pm => some { pm with jobMetas := queryAugment pm.jobMetas liveJm }

/-! ## Project runner (masterproj.go lines 121-147)

The external `runJob` collaborator is modelled by giving each job its
observed outcome: a `JobMeta` and an optional error. -/

structure JobSpec where
  kind : String
  meta : JobMeta
  runErr : Option String
deriving DecidableEq

/-- The wrap at masterproj.go line 134: `"Fail on job %q, %v"`. -/
def wrapJobErr (kind e : String) : String :=
  "Fail on job " ++ goQuote kind ++ ", " ++ e

/-- The job loop of `projRunner` (lines 130-139): every executed job's
meta is inserted (even the failing one's); on error the loop breaks.
Returns (inserted metas, wrapped error of the failing job if any). -/
def runJobsLoop : List JobSpec → List JobMeta × Option String
  | [] => ([], none)
  | j :: rest =>
    match j.runErr with
    | some e => ([j.meta], some (wrapJobErr j.kind e))
    | none =>
      let r := runJobsLoop rest
      (j.meta :: r.1, r.2)

/-- Observable outcome of one `projRunner` execution: the metas inserted
into the project meta, whether `proj.Finish()` was invoked, and the
arguments of the successive `projctx.finish` calls, in order. -/
structure ProjRunOutcome where
  insertedMetas : List JobMeta
  projFinishCalled : Bool
  finishCalls : List (Option String)
deriving DecidableEq

/-- `projRunner()` (masterproj.go lines 121-147). `initErr` is the result
of `proj.Init(config)`, `finishErr` the result of `proj.Finish()`.
Note that after a job failure the loop merely `break`s (line 137), so
control still reaches `proj.Finish()` at line 140. -/
def projRunnerModel (initErr : Option String) (jobs : List JobSpec)
    (finishErr : Option String) : ProjRunOutcome :=
  match initErr with
  | some e => { insertedMetas := [], projFinishCalled := false, finishCalls := [some e] }
  | none =>
    let r := runJobsLoop jobs
    let jobCalls : List (Option String) :=
      match r.2 with
      | some e => [some e]
      | none => []
    match finishErr with
    | some fe =>
        { insertedMetas := r.1, projFinishCalled := true, finishCalls := jobCalls ++ [some fe] }
    | none =>
        { insertedMetas := r.1, projFinishCalled := true, finishCalls := jobCalls ++ [none] }

/-- `(ctx *ProjectCtx) finish(err)` (masterproj.go lines 87-97), acting
on the project meta; `free := true` is context state, tracked by the
caller where needed. -/
def applyFinish (pm : ProjMeta) (err : Option String) (now : Nat) : ProjMeta :=
  let pm1 :=
    match err with
    | some e => { pm with err := some e, errMsg := e }
    | none => pm
  { pm1 with finished := true, endTs := now }

/-- The project meta after a `projRunner` execution: the fresh meta made
by `start()` with the inserted job metas, after all `finish` calls. -/
def finalProjMeta (projName : String) (startTs : Nat) (out : ProjRunOutcome)
    (now : Nat) : ProjMeta :=
  out.finishCalls.foldl (fun pm e => applyFinish pm e now)
    { ProjMeta.initMeta projName with startTs := startTs, jobMetas := out.insertedMetas }

/-! ## Worker task engine: tasklet retry (workertask.go lines 205-235)

A tasklet's `Execute(c)` outcomes are modelled per attempt: entry `k` of
`execErrs` is the error returned by the `k`-th call (missing entries mean
success, i.e. nil). -/

structure TaskletM where
  tid : String
  execErrs : List (Option String)
deriving DecidableEq

def TaskletM.execAt (t : TaskletM) (k : Nat) : Option String :=
  t.execErrs.getD k none

/-- The retry loop at workertask.go lines 220-225:
`for i := 0; i < TASKLET_MAX_RETRY; i++ { if err = tasklet.Execute(c); err == nil { break } }`.
`i` counts the `Execute` calls made so far; returns (number of calls,
value of `err` after the loop). -/
def retryExecuteAux (exec : Nat → Option String) : Nat → Nat → Nat × Option String
  | i, 0 => (i, none)
  | i, fuel + 1 =>
    match exec i with
    | none => (i + 1, none)
    | some e => if fuel = 0 then (i + 1, some e) else retryExecuteAux exec (i + 1) fuel

def retryExecute (exec : Nat → Option String) : Nat × Option String :=
  retryExecuteAux exec 0 TASKLET_MAX_RETRY

/-- Lines 227-232 of the executor body: on a non-nil final attempt the
tasklet is not enqueued and the error is recorded (`setErr`); otherwise
it is appended to the done channel. Returns (enqueued?, recorded error). -/
def execOneTasklet (t : TaskletM) : Bool × Option String :=
  match (retryExecute t.execAt).2 with
  | some e => (false, some e)
  | none => (true, none)

/-! ## Worker task engine: sequential run model (workertask.go lines 109-114, 160-182, 237-249)

The done-channel bookkeeping of `TaskCtx`: `appendDoneTasklet` sends on
`doneTasklets` and increments `done` under the mutex. -/

structure TaskState where
  doneChan : List TaskletM
  done : Nat
deriving DecidableEq

/-- `(ctx *TaskCtx) appendDoneTasklet` (workertask.go lines 109-114). -/
def appendDoneTasklet (st : TaskState) (t : TaskletM) : TaskState :=
  { doneChan := st.doneChan ++ [t], done := st.done + 1 }

/-- Sequential (single-schedule) model of the executor pool consuming the
tasklets yielded by `GetNextTasklet` in order: each tasklet goes through
the retry loop; a final-attempt failure records the error and stops all
further consumption (abort), exactly as a failing executor stops and the
others observe `aborted()`. Returns (final channel state, recorded error). -/
def processTasklets : TaskState → List TaskletM → TaskState × Option String
  | st, [] => (st, none)
  | st, t :: ts =>
    match (retryExecute t.execAt).2 with
    | some e => (st, some e)
    | none => processTasklets (appendDoneTasklet st t) ts

/-- Observables of one `handleTaskReq` run (workertask.go lines 160-182):
the final task error, the done-channel content and counter, the sequence
passed to `ReduceTasklets` (`none` when it was not called, per lines
173-177), and the argument of `tsk.SetError` (`none` when not called). -/
structure TaskRunResult where
  taskErr : Option String
  doneChan : List TaskletM
  doneCount : Nat
  reduceArg : Option (List TaskletM)
  setErrorArg : Option String
deriving DecidableEq

/-- `handleTaskReq(tsk)` (workertask.go lines 160-182) over the sequential
run model: on `tsk.Init` failure the error is recorded and the executor
phase is skipped; otherwise the yielded tasklets are processed; finally
either `tsk.SetError(ctx.err)` (aborted) or `reduceTasklets` (lines
237-249: drain `doneTasklets`, pass the drained sequence). -/
def handleTaskReqModel (initErr : Option String) (tasklets : List TaskletM) :
    TaskRunResult :=
  match initErr with
  | some e =>
      { taskErr := some e, doneChan := [], doneCount := 0
        reduceArg := none, setErrorArg := some e }
  | none =>
    let r := processTasklets { doneChan := [], done := 0 } tasklets
    match r.2 with
    | some e =>
        { taskErr := some e, doneChan := r.1.doneChan, doneCount := r.1.done
          reduceArg := none, setErrorArg := some e }
    | none =>
        { taskErr := none, doneChan := r.1.doneChan, doneCount := r.1.done
          reduceArg := some r.1.doneChan, setErrorArg := none }

/-! ## Worker task engine: concurrent small-step model
(workertask.go lines 160-235)

For the liveness claim the producer (`assignTasklets`, lines 184-203) and
the two executors (`taskletExecutor`, lines 205-235) are modelled as a
labelled transition system. A blocked channel operation is a label with
no enabled transition. -/

/-- Producer program points: the loop head at line 187 (with the next
tasklet index), the blocking send at line 199, and termination. -/
inductive PState
  | ploop (i : Nat)
  | psend (t : Nat) (i : Nat)
  | pdone
deriving DecidableEq

/-- Executor program points: the loop head at line 208 (abort check), the
blocking receive at line 214, executing a dequeued tasklet (lines
220-232), and termination. -/
inductive EState
  | eloop
  | erecv
  | eexec (t : Nat)
  | edone
deriving DecidableEq

/-- The task as the engine observes it: `next i` is the result of the
`i`-th `GetNextTasklet` call (tasklets are named by that index), and
`execRes t k` the error of attempt `k` of tasklet `t`'s `Execute`. -/
structure EngineTask where
  next : Nat → Option Nat
  execRes : Nat → Nat → Option String

structure EngineConf where
  todoBuf : List Nat
  todoClosed : Bool
  taskErr : Option String
  doneCnt : Nat
  doneBuf : List Nat
  prod : PState
  execA : EState
  execB : EState
deriving DecidableEq

inductive Lbl
  | p
  | eA
  | eB
deriving DecidableEq

/-- One producer step (`assignTasklets`, lines 184-203). At the loop head
the abort flag is checked (line 188) and, if clear, the next tasklet is
generated (line 193; `nil` closes `todoTasklets` and ends the loop, lines
194-197). The send at line 199 is enabled only while the buffered channel
(capacity `BUF_TASKLET_CNT`) has room. -/
def prodStep (tk : EngineTask) (c : EngineConf) : Option EngineConf :=
  match c.prod with
  | PState.ploop i =>
    if c.taskErr.isSome then some { c with prod := PState.pdone }
    else
      match tk.next i with
      | none => some { c with todoClosed := true, prod := PState.pdone }
      | some t => some { c with prod := PState.psend t i }
  | PState.psend t i =>
    if c.todoBuf.length < BUF_TASKLET_CNT then
      some { c with todoBuf := c.todoBuf ++ [t], prod := PState.ploop (i + 1) }
    else none
  | PState.pdone => none

/-- One executor step (`taskletExecutor`, lines 205-235), parametric in
which executor's state is being advanced: abort check at line 209;
receive at line 214 (blocked when the channel is open and empty, exits
when it is closed and drained); the retry loop plus the lines 227-232
outcome handling (`setErr` + break, or `appendDoneTasklet`). -/
def execMicroStep (tk : EngineTask) (c : EngineConf) (es : EState) :
    Option (EngineConf × EState) :=
  match es with
  | EState.eloop =>
    if c.taskErr.isSome then some (c, EState.edone) else some (c, EState.erecv)
  | EState.erecv =>
    match c.todoBuf with
    | t :: rest => some ({ c with todoBuf := rest }, EState.eexec t)
    | [] => if c.todoClosed then some (c, EState.edone) else none
  | EState.eexec t =>
    match (retryExecute (tk.execRes t)).2 with
    | some e => some ({ c with taskErr := some e }, EState.edone)
    | none =>
        some ({ c with doneBuf := c.doneBuf ++ [t], doneCnt := c.doneCnt + 1 },
              EState.eloop)
  | EState.edone => none

def engineStep (tk : EngineTask) (l : Lbl) (c : EngineConf) : Option EngineConf :=
  match l with
  | Lbl.p => prodStep tk c
  | Lbl.eA => (execMicroStep tk c c.execA).map (fun pr => { pr.1 with execA := pr.2 })
  | Lbl.eB => (execMicroStep tk c c.execB).map (fun pr => { pr.1 with execB := pr.2 })

def runEngine (tk : EngineTask) : List Lbl → EngineConf → Option EngineConf
  | [], c => some c
  | l :: ls, c =>
    match engineStep tk l c with
    | none => none
    | some c2 => runEngine tk ls c2

/-- State right after `tskctx.init()` and `prepareExecutors` in
`handleTaskReq`: empty open channel, no error, producer at its loop head,
both executors at theirs. -/
def engineInit : EngineConf :=
  { todoBuf := [], todoClosed := false, taskErr := none, doneCnt := 0, doneBuf := []
    prod := PState.ploop 0, execA := EState.eloop, execB := EState.eloop }

/-- A task with 11 tasklets of which tasklet 0 fails all of its
`TASKLET_MAX_RETRY` attempts and every other tasklet succeeds at once. -/
def deadTask : EngineTask :=
  { next := fun i => if i < 11 then some i else none
    execRes := fun t _ => if t = 0 then some "tasklet 0 failed" else none }

/-- Schedule: the producer fills all 8 buffer slots and blocks; executor A
dequeues tasklet 0, executor B dequeues tasklet 1 (the producer refilling
the freed slots and blocking again each time); A's retries fail, setting
the abort error; B finishes tasklet 1 and sees the abort at its next loop
check. Both executors exit while the producer is blocked on a full
channel. -/
def deadSchedule : List Lbl :=
  List.replicate 17 Lbl.p ++
    [Lbl.eA, Lbl.eA, Lbl.p, Lbl.p, Lbl.eB, Lbl.eB, Lbl.p, Lbl.p, Lbl.eA, Lbl.eB, Lbl.eB]

/-- The configuration reached by `deadSchedule`: abort recorded, both
executors exited, producer blocked forever at the send of tasklet 10. -/
def deadConf : EngineConf :=
  { todoBuf := [2, 3, 4, 5, 6, 7, 8, 9], todoClosed := false
    taskErr := some "tasklet 0 failed", doneCnt := 1, doneBuf := [1]
    prod := PState.psend 10 10, execA := EState.edone, execB := EState.edone }

/-! ## TaskletCtx lifecycle (workertask.go lines 136-153, 160-182) -/

inductive LifeEvent
  | spawnExec (i : Nat)
  | execExit (i : Nat)
  | barrier
  | closeCtx (i : Nat)
deriving DecidableEq

def isBarrier : LifeEvent → Bool
  | LifeEvent.barrier => true
  | _ => false

/-- `prepareExecutors` (lines 136-146): one `NewTaskletCtx()` per
executor index; only non-nil ctxs are appended to `taskletCtxList`.
`isNilCtx i` tells whether the `i`-th call returned nil. The ctx created
for executor `i` is identified by `i`. -/
def prepareCtxIds (isNilCtx : Nat → Bool) (cnt : Nat) : List Nat :=
  (List.range cnt).filter (fun i => !(isNilCtx i))

/-- Event trace of a completed `handleTaskReq` run (success branch of
lines 163-168): executors are spawned by `prepareExecutors`, all exit,
`waitForTaskDone` passes the `wgFinish` barrier, then `releaseExecutors`
(lines 148-153) closes each listed ctx once, in list order. -/
def taskLifeTrace (isNilCtx : Nat → Bool) : List LifeEvent :=
  ((List.range RUNNING_EXECUTOR_CNT).map LifeEvent.spawnExec) ++
    ((List.range RUNNING_EXECUTOR_CNT).map LifeEvent.execExit) ++
    [LifeEvent.barrier] ++
    ((prepareCtxIds isNilCtx RUNNING_EXECUTOR_CNT).map LifeEvent.closeCtx)

/-! ## Pointer-level model of `ProjMeta.snapshot` (masterproj.go lines 37-50)

`JobMetas` is a slice of `*JobMeta`. Natesses index a heap of `JobMeta`
cells; `ProjMeta` structs live in their own heap of cells, so that the
distinction between copying the slice spine and copying the pointed-to
elements is visible. -/

structure ProjMetaR where
  name : String
  startTs : Nat
  endTs : Nat
  errMsg : String
  finished : Bool
  jobMetas : List Nat
deriving DecidableEq

structure MasterHeap where
  jmCells : List JobMeta
  pmCells : List ProjMetaR
deriving DecidableEq

def defaultJobMeta : JobMeta := { kind := "", startTs := 0 }

def defaultProjMetaR : ProjMetaR :=
  { name := "", startTs := 0, endTs := 0, errMsg := "", finished := false, jobMetas := [] }

def readJM (h : MasterHeap) (a : Nat) : JobMeta := h.jmCells.getD a defaultJobMeta

def writeJM (h : MasterHeap) (a : Nat) (v : JobMeta) : MasterHeap :=
  { h with jmCells := h.jmCells.set a v }

def readPM (h : MasterHeap) (a : Nat) : ProjMetaR := h.pmCells.getD a defaultProjMetaR

def writePM (h : MasterHeap) (a : Nat) (v : ProjMetaR) : MasterHeap :=
  { h with pmCells := h.pmCells.set a v }

/-- `snapshot()` at the pointer level: `make` + element-wise copy builds a
fresh spine holding the SAME `*JobMeta` addresses; the returned
`&ProjMeta{...}` is a freshly allocated cell. Returns (heap with the new
cell, its address). -/
def snapshotR (h : MasterHeap) (a : Nat) : MasterHeap × Nat :=
  let pm := readPM h a
  let spine := pm.jobMetas.map (fun x => x)
  let cell : ProjMetaR :=
    { name := pm.name, startTs := pm.startTs, endTs := pm.endTs
      errMsg := pm.errMsg, finished := pm.finished, jobMetas := spine }
  ({ h with pmCells := h.pmCells ++ [cell] }, h.pmCells.length)

/-- The `JobMeta` values a `ProjMeta` cell presents (what gets
serialized): its spine with every pointer dereferenced. -/
def renderJobMetas (h : MasterHeap) (a : Nat) : List JobMeta :=
  (readPM h a).jobMetas.map (readJM h)

/-- `JobMetas = append(JobMetas, j)` on the cell at `a` (as done by
`insertJobMeta` on the live meta or by `queryProjStatusHandler` line 199
/ 202 on the snapshot). -/
def appendJobMetaR (h : MasterHeap) (a : Nat) (j : Nat) : MasterHeap :=
  writePM h a { readPM h a with jobMetas := (readPM h a).jobMetas ++ [j] }

/-! ## Event counting helper -/

def countEvent (e : LifeEvent) : List LifeEvent → Nat
  | [] => 0
  | x :: xs => (if x = e then 1 else 0) + countEvent e xs

/-! ## Concrete instances used by counterexamples and witnesses -/

def jobFail : JobSpec :=
  { kind := "k1", meta := { kind := "k1", startTs := 1 }, runErr := some "boom" }

def jobOk : JobSpec :=
  { kind := "k2", meta := { kind := "k2", startTs := 2 }, runErr := none }

def ctxBusy : ProjectCtx :=
  { idx := 3, free := false, projId := "proj7-2", config := "cfg"
    proj := some 1, projMeta := none }

def tOk : TaskletM := { tid := "t0", execErrs := [] }

def tRetry : TaskletM := { tid := "t2", execErrs := [some "x", none] }

def tBad : TaskletM := { tid := "t1", execErrs := [some "e1", some "e1", some "e1"] }

def h0C9 : MasterHeap :=
  { jmCells := [{ kind := "map", startTs := 5 }]
    pmCells := [{ name := "p", startTs := 1, endTs := 0, errMsg := ""
                  finished := false, jobMetas := [0] }] }

/-! # Theorems -/

/-! ## List helpers -/

theorem getD_append_lt {α : Type} (l1 l2 : List α) (d : α) :
    ∀ i, i < l1.length → (l1 ++ l2).getD i d = l1.getD i d := by
  induction l1 with
  | nil => intro i h; exact absurd h (by simp)
  | cons a l ih =>
    intro i h
    cases i with
    | zero => rfl
    | succ n => exact ih n (by simpa using h)

theorem getD_concat_length {α : Type} (l : List α) (c d : α) :
    (l ++ [c]).getD l.length d = c := by
  induction l with
  | nil => rfl
  | cons a t ih => simp only [List.cons_append, List.length_cons]; exact ih

theorem getD_set_ne {α : Type} (l : List α) (v d : α) :
    ∀ i j, i ≠ j → (l.set i v).getD j d = l.getD j d := by
  induction l with
  | nil => intro i j _; cases i <;> rfl
  | cons a t ih =>
    intro i j hij
    cases i with
    | zero =>
      cases j with
      | zero => exact absurd rfl hij
      | succ m => rfl
    | succ n =>
      cases j with
      | zero => rfl
      | succ m => exact ih n m (fun h => hij (by rw [h]))

/-! ## Helper lemmas about the runner models -/

/-- The job loop on a list whose first failure is `j`: all of `pre`
succeeds, `j` fails with `e`; every job in `post` is skipped. -/
theorem runJobsLoop_first_fail (pre : List JobSpec) (j : JobSpec) (post : List JobSpec)
    (e : String) (hpre : ∀ s ∈ pre, s.runErr = none) (hj : j.runErr = some e) :
    runJobsLoop (pre ++ j :: post) =
      (pre.map JobSpec.meta ++ [j.meta], some (wrapJobErr j.kind e)) := by
  induction pre with
  | nil => simp [runJobsLoop, hj]
  | cons s rest ih =>
    have hs : s.runErr = none := hpre s (by simp)
    have hrest : ∀ x ∈ rest, x.runErr = none := fun x hx => hpre x (by simp [hx])
    simp [runJobsLoop, hs, ih hrest]

/-- A non-aborted `processTasklets` run appends every tasklet to the done
channel and bumps the counter once per tasklet. -/
theorem processTasklets_ok (ts : List TaskletM) :
    ∀ st : TaskState, (processTasklets st ts).2 = none →
      processTasklets st ts =
        ({ doneChan := st.doneChan ++ ts, done := st.done + ts.length }, none) := by
  induction ts with
  | nil => intro st _; simp [processTasklets]
  | cons t ts ih =>
    intro st h
    cases hr : (retryExecute t.execAt).2 with
    | some e => simp [processTasklets, hr] at h
    | none =>
      have h2 : (processTasklets (appendDoneTasklet st t) ts).2 = none := by
        simpa [processTasklets, hr] using h
      have h3 := ih (appendDoneTasklet st t) h2
      simp only [processTasklets, hr]
      rw [h3]
      simp [appendDoneTasklet, List.append_assoc]
      omega

/-- Evaluation of the retry loop in terms of the first three attempts. -/
theorem retryExecute_eq (ex : Nat → Option String) :
    retryExecute ex =
      match ex 0 with
      | none => (1, none)
      | some _ =>
        match ex 1 with
        | none => (2, none)
        | some _ => (3, ex 2) := by
  cases h0 : ex 0 with
  | none => simp [retryExecute, TASKLET_MAX_RETRY, retryExecuteAux, h0]
  | some e0 =>
    cases h1 : ex 1 with
    | none => simp [retryExecute, TASKLET_MAX_RETRY, retryExecuteAux, h0, h1]
    | some e1 =>
      cases h2 : ex 2 with
      | none => simp [retryExecute, TASKLET_MAX_RETRY, retryExecuteAux, h0, h1, h2]
      | some e2 => simp [retryExecute, TASKLET_MAX_RETRY, retryExecuteAux, h0, h1, h2]

/-! ## Claim C1 -/

/-- Claim C1 counterexample: a run whose single job fails records the
wrapped error and skips nothing after it, yet `proj.Finish()` IS called
(`projFinishCalled = true`) and `finish(nil)` runs afterwards — the loop
only `break`s (masterproj.go line 137), and control falls through to
line 140. This refutes the claim's part "does not call proj.Finish() in
that path". -/
theorem c1_counterexample :
    (projRunnerModel none [jobFail, jobOk] none).projFinishCalled = true ∧
    (projRunnerModel none [jobFail, jobOk] none).insertedMetas
        = [{ kind := "k1", startTs := 1 }] ∧
    (projRunnerModel none [jobFail, jobOk] none).finishCalls
        = [some (wrapJobErr "k1" "boom"), none] := by
  refine ⟨rfl, rfl, rfl⟩

/-- Claim C1 (amended): when `runJob` fails on a job, the driver records
the wrapped error "Fail on job <kind>, <err>" via `finish`, skips all
later jobs, BUT still calls `proj.Finish()` after the loop; when
`proj.Finish()` succeeds, `finish(nil)` also runs, and the recorded
error message survives in the final project meta. -/
theorem c1_job_failure (pre : List JobSpec) (j : JobSpec) (post : List JobSpec)
    (e : String) (finishErr : Option String)
    (hpre : ∀ s ∈ pre, s.runErr = none) (hj : j.runErr = some e) :
    (projRunnerModel none (pre ++ j :: post) finishErr).insertedMetas
        = pre.map JobSpec.meta ++ [j.meta] ∧
    (projRunnerModel none (pre ++ j :: post) finishErr).finishCalls.head?
        = some (some (wrapJobErr j.kind e)) ∧
    (projRunnerModel none (pre ++ j :: post) finishErr).projFinishCalled = true ∧
    (finishErr = none → ∀ nm st now,
      (finalProjMeta nm st (projRunnerModel none (pre ++ j :: post) finishErr) now).errMsg
        = wrapJobErr j.kind e) := by
  have hloop := runJobsLoop_first_fail pre j post e hpre hj
  cases finishErr with
  | none =>
    refine ⟨?_, ?_, ?_, ?_⟩
    · simp [projRunnerModel, hloop]
    · simp [projRunnerModel, hloop]
    · simp [projRunnerModel, hloop]
    · intro _ nm st now
      simp [projRunnerModel, hloop, finalProjMeta, applyFinish]
  | some fe =>
    refine ⟨?_, ?_, ?_, ?_⟩
    · simp [projRunnerModel, hloop]
    · simp [projRunnerModel, hloop]
    · simp [projRunnerModel, hloop]
    · intro h; cases h

/-- Claim C1 witness: the amended theorem applied to the concrete failing
run of `c1_counterexample`. -/
theorem c1_job_failure_witness :
    (projRunnerModel none ([] ++ jobFail :: [jobOk]) none).insertedMetas
        = ([] : List JobSpec).map JobSpec.meta ++ [jobFail.meta] ∧
    (projRunnerModel none ([] ++ jobFail :: [jobOk]) none).finishCalls.head?
        = some (some (wrapJobErr jobFail.kind "boom")) ∧
    (projRunnerModel none ([] ++ jobFail :: [jobOk]) none).projFinishCalled = true ∧
    ((none : Option String) = none → ∀ nm st now,
      (finalProjMeta nm st (projRunnerModel none ([] ++ jobFail :: [jobOk]) none) now).errMsg
        = wrapJobErr jobFail.kind "boom") :=
  c1_job_failure [] jobFail [jobOk] "boom" none (by simp) rfl

/-! ## Claim C2 -/

/-- Claim C2 counterexample: the live job meta has the same kind as the
last snapshot element but a different start timestamp; the claim says it
is appended ("when either the Kind or the StartTs ... differs"), but the
source condition `last.Kind != jmeta.Kind && last.StartTs != jmeta.StartTs`
(masterproj.go line 198) requires BOTH to differ, so nothing is appended. -/
theorem c2_counterexample :
    queryAugment [{ kind := "reduce", startTs := 1 }] { kind := "reduce", startTs := 2 }
        = [{ kind := "reduce", startTs := 1 }] ∧
    ({ kind := "reduce", startTs := 2 } : JobMeta).kind ≠ "" ∧
    ({ kind := "reduce", startTs := 2 } : JobMeta).startTs ≠
      ({ kind := "reduce", startTs := 1 } : JobMeta).startTs := by
  refine ⟨rfl, by decide, by decide⟩

/-- Claim C2 (amended): the live `JobMeta` (with nonempty kind) is
appended to the snapshot's `JobMetas` iff the list is empty or its last
element differs from the live meta in BOTH `Kind` and `StartTs`; if
either field matches the last element, nothing is appended. -/
theorem c2_augment_rule (jms : List JobMeta) (jm : JobMeta) :
    queryAugment jms jm = if shouldAppendLive jms jm then jms ++ [jm] else jms := by
  unfold queryAugment shouldAppendLive
  by_cases hk : jm.kind = ""
  · simp [hk]
  · cases hl : jms.getLast? with
    | none => simp [hk, hl]
    | some last =>
      by_cases h1 : last.kind = jm.kind
      · simp [hk, hl, h1]
      · by_cases h2 : last.startTs = jm.startTs
        · simp [hk, hl, h1, h2]
        · simp [hk, hl, h1, h2]

/-! ## Claim C3 -/

/-- Claim C3: refuted — the code deadlocks. Running `deadTask` (11
tasklets, tasklet 0 fails every retry) under `deadSchedule` reaches
`deadConf`: the abort error is set by a tasklet failure while the
producer is blocked sending tasklet 10 into the full `todoTasklets`
buffer and both executors have exited. No transition is enabled in
`deadConf` (the producer's send can never complete because nothing will
ever receive), so the producer does NOT terminate and `handleTaskReq`
never reaches its report phase, contrary to the claim. -/
theorem c3_producer_blocked_forever :
    runEngine deadTask deadSchedule engineInit = some deadConf ∧
    deadConf.taskErr = some "tasklet 0 failed" ∧
    deadConf.prod = PState.psend 10 10 ∧
    deadConf.execA = EState.edone ∧
    deadConf.execB = EState.edone ∧
    engineStep deadTask Lbl.p deadConf = none ∧
    engineStep deadTask Lbl.eA deadConf = none ∧
    engineStep deadTask Lbl.eB deadConf = none := by
  refine ⟨rfl, rfl, rfl, rfl, rfl, rfl, rfl, rfl⟩

/-! ## Claim C4 -/

/-- Claim C4: while `free` is false, `checkAndUnsetFree` returns an empty
projId together with the error `Project "<current projId>" in running`
and leaves the whole context (free, proj, config, projId, projMeta, idx)
unchanged; while `free` is true it unsets `free`, stores project and
config, and returns a freshly minted projId (and bumps the mint
counter), leaving `projMeta` alone. -/
theorem c4_admission_gate (ctx : ProjectCtx) (proj : Nat) (config : String) (ts : Nat) :
    (ctx.free = false →
      checkAndUnsetFree ctx proj config ts =
        (("", some ("Project " ++ goQuote ctx.projId ++ " in running")), ctx)) ∧
    (ctx.free = true →
      checkAndUnsetFree ctx proj config ts =
        ((makeProjId ts ctx.idx, none),
         { idx := ctx.idx + 1, free := false, projId := makeProjId ts ctx.idx
           config := config, proj := some proj, projMeta := ctx.projMeta })) := by
  constructor
  · intro h; simp [checkAndUnsetFree, h]
  · intro h; simp [checkAndUnsetFree, h]

/-- Claim C4 witness: the busy branch at a concrete occupied context. -/
theorem c4_admission_gate_witness :
    checkAndUnsetFree ctxBusy 7 "newcfg" 42 =
      (("", some ("Project " ++ goQuote ctxBusy.projId ++ " in running")), ctxBusy) :=
  (c4_admission_gate ctxBusy 7 "newcfg" 42).1 rfl

/-! ## Claim C5 -/

/-- Claim C5: `ReduceTasklets` is called iff the task context is not
aborted (err is nil) at the end of the run; when aborted, `tsk.SetError`
is called with the recorded error instead, and the tasklets completed
before the failure (still sitting in the done channel) are not reduced. -/
theorem c5_reduce_iff_not_aborted (initErr : Option String) (ts : List TaskletM) :
    ((handleTaskReqModel initErr ts).reduceArg.isSome ↔
        (handleTaskReqModel initErr ts).taskErr = none) ∧
    ((handleTaskReqModel initErr ts).taskErr = none →
        (handleTaskReqModel initErr ts).reduceArg
          = some (handleTaskReqModel initErr ts).doneChan ∧
        (handleTaskReqModel initErr ts).setErrorArg = none) ∧
    (∀ e, (handleTaskReqModel initErr ts).taskErr = some e →
        (handleTaskReqModel initErr ts).setErrorArg = some e ∧
        (handleTaskReqModel initErr ts).reduceArg = none) := by
  cases initErr with
  | some e => simp [handleTaskReqModel]
  | none =>
    cases hr : (processTasklets { doneChan := [], done := 0 } ts).2 with
    | some e => simp [handleTaskReqModel, hr]
    | none => simp [handleTaskReqModel, hr]

/-- Claim C5 witness: a run where `tOk` completes and then `tBad` fails
all retries; the completed `tOk` sits in the done channel but is
discarded (`reduceArg = none`), and `SetError` receives the recorded
error. -/
theorem c5_reduce_iff_not_aborted_witness :
    (handleTaskReqModel none [tOk, tBad]).taskErr = some "e1" ∧
    (handleTaskReqModel none [tOk, tBad]).doneChan = [tOk] ∧
    ((handleTaskReqModel none [tOk, tBad]).setErrorArg = some "e1" ∧
      (handleTaskReqModel none [tOk, tBad]).reduceArg = none) :=
  ⟨rfl, rfl, (c5_reduce_iff_not_aborted none [tOk, tBad]).2.2 "e1" rfl⟩

/-! ## Claim C6 -/

/-- Claim C6: in a non-aborted run the done counter equals the length of
the drained done channel, which is exactly the sequence handed to
`ReduceTasklets`, and its length equals the number of tasklets the
generator yielded. -/
theorem c6_conservation (ts : List TaskletM)
    (h : (processTasklets { doneChan := [], done := 0 } ts).2 = none) :
    (handleTaskReqModel none ts).doneCount = (handleTaskReqModel none ts).doneChan.length ∧
    (handleTaskReqModel none ts).reduceArg = some (handleTaskReqModel none ts).doneChan ∧
    (handleTaskReqModel none ts).doneChan = ts ∧
    (handleTaskReqModel none ts).doneChan.length = ts.length := by
  have hp := processTasklets_ok ts { doneChan := [], done := 0 } h
  refine ⟨?_, ?_, ?_, ?_⟩ <;> simp [handleTaskReqModel, hp]

/-- Claim C6 witness: a concrete two-tasklet success run (one tasklet
needing a retry). -/
theorem c6_conservation_witness :
    (processTasklets { doneChan := [], done := 0 } [tOk, tRetry]).2 = none ∧
    ((handleTaskReqModel none [tOk, tRetry]).doneCount
        = (handleTaskReqModel none [tOk, tRetry]).doneChan.length ∧
      (handleTaskReqModel none [tOk, tRetry]).reduceArg
        = some (handleTaskReqModel none [tOk, tRetry]).doneChan ∧
      (handleTaskReqModel none [tOk, tRetry]).doneChan = [tOk, tRetry] ∧
      (handleTaskReqModel none [tOk, tRetry]).doneChan.length
        = ([tOk, tRetry] : List TaskletM).length) :=
  ⟨rfl, c6_conservation [tOk, tRetry] rfl⟩

/-! ## Claim C7 -/

/-- Claim C7: for every dequeued tasklet, `Execute` is invoked at least
once and at most `TASKLET_MAX_RETRY` (3) times, stopping at the first
nil result (every attempt before the last returned an error, and an
early stop means success); the recorded outcome is the final attempt's
result; the tasklet is enqueued on the done channel iff the final
attempt returned nil, and on a non-nil final attempt the executor
records the error and consumes nothing further. -/
theorem c7_retry_semantics (t : TaskletM) :
    1 ≤ (retryExecute t.execAt).1 ∧
    (retryExecute t.execAt).1 ≤ TASKLET_MAX_RETRY ∧
    (retryExecute t.execAt).2 = t.execAt ((retryExecute t.execAt).1 - 1) ∧
    (∀ j, j + 1 < (retryExecute t.execAt).1 → (t.execAt j).isSome = true) ∧
    ((retryExecute t.execAt).1 < TASKLET_MAX_RETRY → (retryExecute t.execAt).2 = none) ∧
    ((execOneTasklet t).1 = true ↔ (retryExecute t.execAt).2 = none) ∧
    (execOneTasklet t).2 = (retryExecute t.execAt).2 ∧
    (∀ st ts e, (retryExecute t.execAt).2 = some e →
        processTasklets st (t :: ts) = (st, some e)) ∧
    (∀ st ts, (retryExecute t.execAt).2 = none →
        processTasklets st (t :: ts) = processTasklets (appendDoneTasklet st t) ts) := by
  cases h0 : t.execAt 0 with
  | none =>
    have hre : retryExecute t.execAt = (1, none) := by
      rw [retryExecute_eq, h0]
    refine ⟨by rw [hre], by rw [hre]; decide, by rw [hre]; exact h0.symm, ?_, ?_, ?_, ?_, ?_, ?_⟩
    · intro j hj; rw [hre] at hj; exact absurd hj (by omega)
    · intro _; rw [hre]
    · simp [execOneTasklet, hre]
    · simp [execOneTasklet, hre]
    · intro st ts e he; rw [hre] at he; cases he
    · intro st ts _; simp [processTasklets, hre]
  | some e0 =>
    cases h1 : t.execAt 1 with
    | none =>
      have hre : retryExecute t.execAt = (2, none) := by
        rw [retryExecute_eq, h0, h1]
      refine ⟨by rw [hre]; decide, by rw [hre]; decide, by rw [hre]; exact h1.symm, ?_, ?_, ?_, ?_, ?_, ?_⟩
      · intro j hj; rw [hre] at hj
        have hj0 : j = 0 := by omega
        rw [hj0, h0]; rfl
      · intro _; rw [hre]
      · simp [execOneTasklet, hre]
      · simp [execOneTasklet, hre]
      · intro st ts e he; rw [hre] at he; cases he
      · intro st ts _; simp [processTasklets, hre]
    | some e1 =>
      cases h2 : t.execAt 2 with
      | none =>
        have hre : retryExecute t.execAt = (3, none) := by
          rw [retryExecute_eq, h0, h1, h2]
        refine ⟨by rw [hre]; decide, by rw [hre]; decide, by rw [hre]; exact h2.symm, ?_, ?_, ?_, ?_, ?_, ?_⟩
        · intro j hj; rw [hre] at hj
          have hj01 : j = 0 ∨ j = 1 := by omega
          rcases hj01 with h | h
          · rw [h, h0]; rfl
          · rw [h, h1]; rfl
        · intro _; rw [hre]
        · simp [execOneTasklet, hre]
        · simp [execOneTasklet, hre]
        · intro st ts e he; rw [hre] at he; cases he
        · intro st ts _; simp [processTasklets, hre]
      | some e2 =>
        have hre : retryExecute t.execAt = (3, some e2) := by
          rw [retryExecute_eq, h0, h1, h2]
        refine ⟨by rw [hre]; exact Nat.succ_le_succ (Nat.zero_le 2), by rw [hre]; exact Nat.le_refl 3, by rw [hre]; exact h2.symm, ?_, ?_, ?_, ?_, ?_, ?_⟩
        · intro j hj; rw [hre] at hj
          have hj01 : j = 0 ∨ j = 1 := by omega
          rcases hj01 with h | h
          · rw [h, h0]; rfl
          · rw [h, h1]; rfl
        · intro hlt; rw [hre] at hlt
          have h33 : (3 : Nat) < 3 := hlt
          exact absurd h33 (by decide)
        · simp [execOneTasklet, hre]
        · simp [execOneTasklet, hre]
        · intro st ts e he; rw [hre] at he
          cases he; simp [processTasklets, hre]
        · intro st ts hn; rw [hre] at hn; cases hn

/-- Claim C7 witness: `tBad` fails all three attempts, so a task
consisting of it alone aborts without enqueueing anything. -/
theorem c7_retry_semantics_witness :
    processTasklets { doneChan := [], done := 0 } [tBad]
      = ({ doneChan := [], done := 0 }, some "e1") :=
  (c7_retry_semantics tBad).2.2.2.2.2.2.2.1 { doneChan := [], done := 0 } [] "e1" rfl

/-! ## Claim C8 -/

/-- Claim C8: in a completed task run, the ctx created for executor `i`
is closed exactly once if `NewTaskletCtx` returned non-nil for it (and
never otherwise), and the pre-barrier prefix of the run's event trace
consists exactly of the executor spawns and exits — so every `Close`
happens only after all executors have exited (the `wgFinish` barrier). -/
theorem c8_ctx_close_once (isNil : Nat → Bool) (i : Nat) :
    countEvent (LifeEvent.closeCtx i) (taskLifeTrace isNil) =
      (if i < RUNNING_EXECUTOR_CNT ∧ isNil i = false then 1 else 0) ∧
    (taskLifeTrace isNil).takeWhile (fun e => !(isBarrier e)) =
      [LifeEvent.spawnExec 0, LifeEvent.spawnExec 1,
       LifeEvent.execExit 0, LifeEvent.execExit 1] := by
  constructor
  · have hr : List.range RUNNING_EXECUTOR_CNT = [0, 1] := rfl
    rcases i with _ | _ | n <;>
      cases h0 : isNil 0 <;> cases h1 : isNil 1 <;>
        simp [taskLifeTrace, prepareCtxIds, hr, h0, h1, countEvent,
              List.filter, RUNNING_EXECUTOR_CNT] <;>
          split_ifs <;> omega
  · rfl

/-! ## Claim C9 -/

/-- Claim C9 counterexample: the snapshot's `JobMetas` spine holds the
SAME `*JobMeta` addresses as the live meta (`metas[i] = jmeta` copies
pointers, masterproj.go line 40), so mutating the `JobMeta` cell reached
through the snapshot's element changes what the live `ProjectMeta`
renders — refuting "any mutation of the snapshot (including its JobMetas
elements) leaves the live ProjectMeta unchanged". -/
theorem c9_counterexample :
    (readPM (snapshotR h0C9 0).1 (snapshotR h0C9 0).2).jobMetas
        = (readPM (snapshotR h0C9 0).1 0).jobMetas ∧
    renderJobMetas
        (writeJM (snapshotR h0C9 0).1
          ((readPM (snapshotR h0C9 0).1 (snapshotR h0C9 0).2).jobMetas.getD 0 0)
          { kind := "mutated", startTs := 9 }) 0
      ≠ renderJobMetas (snapshotR h0C9 0).1 0 := by
  refine ⟨rfl, by decide⟩

/-- Claim C9 (amended): the snapshot is a fresh `ProjMeta` cell whose
`JobMetas` spine is a fresh list — appending to the snapshot's list (as
the status handler does) leaves the live cell unchanged, and appending to
the live cell leaves the snapshot unchanged — but the spine holds the
same `*JobMeta` addresses, so the pointed-to elements are shared, not
copied. -/
theorem c9_snapshot_spine (h : MasterHeap) (a : Nat) (ha : a < h.pmCells.length) :
    (snapshotR h a).2 ≠ a ∧
    readPM (snapshotR h a).1 a = readPM h a ∧
    (readPM (snapshotR h a).1 (snapshotR h a).2).jobMetas = (readPM h a).jobMetas ∧
    (∀ j, readPM (appendJobMetaR (snapshotR h a).1 (snapshotR h a).2 j) a
        = readPM (snapshotR h a).1 a) ∧
    (∀ j, readPM (appendJobMetaR (snapshotR h a).1 a j) (snapshotR h a).2
        = readPM (snapshotR h a).1 (snapshotR h a).2) := by
  have hne : (snapshotR h a).2 ≠ a := by
    show h.pmCells.length ≠ a
    omega
  refine ⟨hne, ?_, ?_, ?_, ?_⟩
  · simp only [snapshotR, readPM]
    exact getD_append_lt _ _ _ a ha
  · simp only [snapshotR, readPM]
    rw [getD_concat_length]
    simp
  · intro j
    simp only [appendJobMetaR, writePM, readPM, snapshotR]
    exact getD_set_ne _ _ _ _ _ (by omega)
  · intro j
    simp only [appendJobMetaR, writePM, readPM, snapshotR]
    exact getD_set_ne _ _ _ _ _ (by omega)

/-- Claim C9 witness: the amended theorem at the concrete heap of the
counterexample. -/
theorem c9_snapshot_spine_witness :
    (snapshotR h0C9 0).2 ≠ 0 ∧
    readPM (snapshotR h0C9 0).1 0 = readPM h0C9 0 ∧
    (readPM (snapshotR h0C9 0).1 (snapshotR h0C9 0).2).jobMetas
        = (readPM h0C9 0).jobMetas ∧
    (∀ j, readPM (appendJobMetaR (snapshotR h0C9 0).1 (snapshotR h0C9 0).2 j) 0
        = readPM (snapshotR h0C9 0).1 0) ∧
    (∀ j, readPM (appendJobMetaR (snapshotR h0C9 0).1 0 j) (snapshotR h0C9 0).2
        = readPM (snapshotR h0C9 0).1 (snapshotR h0C9 0).2) :=
  c9_snapshot_spine h0C9 0 (by decide)

/-! ## Claim C10 -/

/-- Claim C10: in the state where no project has ever been admitted
(`projMeta` is nil), `snapshotProjMeta` returns nil, and
`queryProjStatusHandler` then dereferences that nil snapshot
unconditionally (`pmeta.JobMetas`, masterproj.go line 193), so the
status query has no defined result in that state (modelled as `none`),
whatever live job meta the worker reports. -/
theorem c10_query_on_virgin_state (jm : JobMeta) :
    snapshotProjMeta ProjectCtx.initCtx = none ∧
    queryProjStatusModel ProjectCtx.initCtx jm = none :=
  ⟨rfl, rfl⟩

end Pegasus
